import Mathlib

/-
  Verification development for the PlanNode metrics / visual-encoding engine
  (Vue component in src/unnamed/part_000 of sivaramasubramanian/pev2).

  The component's calculations run on JavaScript numbers.  Plan data itself
  only ever holds ordinary finite numbers, so a node field is modelled as
  an `Option ℚ` (`none` = the key is absent / the value is `undefined`),
  while the results of arithmetic are modelled by `JSNum`, which adds the
  IEEE special values NaN, +Infinity and -Infinity that JavaScript division
  and propagation of `undefined` can produce.  (-0 is not distinguished
  from 0; none of the modelled code distinguishes them.)
-/

set_option autoImplicit false

namespace Pev2

/-- Result of JavaScript arithmetic: NaN, the two infinities, or a finite
number (modelled as an exact rational). -/
inductive JSNum
  | nan
  | posInf
  | negInf
  | num (q : ℚ)
deriving DecidableEq, Repr

/-- Coercion of an optional plan value into JS arithmetic: an absent value
(`undefined`) behaves as NaN in every arithmetic context. -/
def toJS : Option ℚ → JSNum
  | none => JSNum.nan
  | some q => JSNum.num q

/-- JavaScript truthiness of a number: NaN and 0 are falsy, every other
number (including the infinities) is truthy. -/
def truthy : JSNum → Bool
  | JSNum.nan => false
  | JSNum.posInf => true
  | JSNum.negInf => true
  | JSNum.num q => decide (q ≠ 0)

/-- JavaScript truthiness of an optional number: `undefined` and 0 are
falsy. -/
def truthyOpt : Option ℚ → Bool
  | none => false
  | some q => decide (q ≠ 0)

/-- JavaScript `a || b` on optional numbers: returns `a` when truthy,
otherwise `b`. -/
def jsOr (a b : Option ℚ) : Option ℚ :=
  if truthyOpt a then a else b

/-- JavaScript `a || b` on computed numbers. -/
def jsOrNum (a b : JSNum) : JSNum :=
  if truthy a then a else b

/-- JavaScript `>` comparison; any comparison with NaN is false. -/
def jsGt : JSNum → JSNum → Bool
  | JSNum.nan, _ => false
  | _, JSNum.nan => false
  | JSNum.posInf, JSNum.posInf => false
  | JSNum.posInf, _ => true
  | JSNum.negInf, _ => false
  | JSNum.num _, JSNum.posInf => false
  | JSNum.num _, JSNum.negInf => true
  | JSNum.num a, JSNum.num b => decide (b < a)

/-- JavaScript addition, with NaN propagation and Infinity arithmetic. -/
def jsAdd : JSNum → JSNum → JSNum
  | JSNum.nan, _ => JSNum.nan
  | _, JSNum.nan => JSNum.nan
  | JSNum.posInf, JSNum.negInf => JSNum.nan
  | JSNum.negInf, JSNum.posInf => JSNum.nan
  | JSNum.posInf, _ => JSNum.posInf
  | _, JSNum.posInf => JSNum.posInf
  | JSNum.negInf, _ => JSNum.negInf
  | _, JSNum.negInf => JSNum.negInf
  | JSNum.num a, JSNum.num b => JSNum.num (a + b)

/-- JavaScript multiplication, with NaN propagation, Infinity times zero
giving NaN, and sign rules for the infinities. -/
def jsMul : JSNum → JSNum → JSNum
  | JSNum.nan, _ => JSNum.nan
  | _, JSNum.nan => JSNum.nan
  | JSNum.posInf, JSNum.posInf => JSNum.posInf
  | JSNum.posInf, JSNum.negInf => JSNum.negInf
  | JSNum.negInf, JSNum.posInf => JSNum.negInf
  | JSNum.negInf, JSNum.negInf => JSNum.posInf
  | JSNum.posInf, JSNum.num b =>
      if b = 0 then JSNum.nan else if 0 < b then JSNum.posInf else JSNum.negInf
  | JSNum.num a, JSNum.posInf =>
      if a = 0 then JSNum.nan else if 0 < a then JSNum.posInf else JSNum.negInf
  | JSNum.negInf, JSNum.num b =>
      if b = 0 then JSNum.nan else if 0 < b then JSNum.negInf else JSNum.posInf
  | JSNum.num a, JSNum.negInf =>
      if a = 0 then JSNum.nan else if 0 < a then JSNum.negInf else JSNum.posInf
  | JSNum.num a, JSNum.num b => JSNum.num (a * b)

/-- JavaScript division: finite by nonzero finite is exact; x/0 is NaN when
x = 0 and a signed infinity otherwise; finite over infinite is 0; NaN and
Infinity/Infinity propagate NaN. -/
def jsDiv : JSNum → JSNum → JSNum
  | JSNum.nan, _ => JSNum.nan
  | _, JSNum.nan => JSNum.nan
  | JSNum.posInf, JSNum.posInf => JSNum.nan
  | JSNum.posInf, JSNum.negInf => JSNum.nan
  | JSNum.negInf, JSNum.posInf => JSNum.nan
  | JSNum.negInf, JSNum.negInf => JSNum.nan
  | JSNum.posInf, JSNum.num b => if 0 ≤ b then JSNum.posInf else JSNum.negInf
  | JSNum.negInf, JSNum.num b => if 0 ≤ b then JSNum.negInf else JSNum.posInf
  | JSNum.num _, JSNum.posInf => JSNum.num 0
  | JSNum.num _, JSNum.negInf => JSNum.num 0
  | JSNum.num a, JSNum.num b =>
      if b = 0 then
        (if a = 0 then JSNum.nan else if 0 < a then JSNum.posInf else JSNum.negInf)
      else JSNum.num (a / b)

/-- JavaScript `Math.round` (which is also lodash round at zero precision):
rounds half toward positive infinity; NaN and the infinities pass through. -/
def jsRound : JSNum → JSNum
  | JSNum.num q => JSNum.num ((⌊q + 1/2⌋ : ℤ) : ℚ)
  | x => x

/-- JavaScript `Math.floor` (also lodash floor at zero precision); NaN and
the infinities pass through. -/
def jsFloor : JSNum → JSNum
  | JSNum.num q => JSNum.num ((⌊q⌋ : ℤ) : ℚ)
  | x => x

/-- Decimal rendering of an integer, as JavaScript toString produces for
integral numbers. -/
def intRepr (i : ℤ) : String :=
  if i < 0 then "-" ++ Nat.repr i.natAbs else Nat.repr i.natAbs

/-- JavaScript `Number.prototype.toString` restricted to the values the
component ever stringifies: NaN, the infinities and integral numbers (the
only finite values that reach it are results of Math.floor).  A non-integral
rational is rendered as numerator/denominator; that arm is never reached by
the modelled code. -/
def jsToString : JSNum → String
  | JSNum.nan => "NaN"
  | JSNum.posInf => "Infinity"
  | JSNum.negInf => "-Infinity"
  | JSNum.num q =>
      if q.den = 1 then intRepr q.num
      else intRepr q.num ++ "/" ++ Nat.repr q.den

/-- Worker record; the component only ever uses the length of the workers
list, so the record's own counters are not modelled. -/
inductive Worker
  | mk

/-- One plan operator node.  Each field models the node's value under the
corresponding NodeProp key; `none` means the key is absent. -/
structure Node where
  exclusiveDuration : Option ℚ
  exclusiveCost : Option ℚ
  actualRows : Option ℚ
  actualTotalTime : Option ℚ
  actualLoops : Option ℚ
  plannerEstimateFactor : Option ℚ
  heapFetches : Option ℚ
  rowsRemovedByFilter : Option ℚ
  rowsRemovedByJoinFilter : Option ℚ
  rowsRemovedByFilterRevised : Option ℚ
  rowsRemovedByJoinFilterRevised : Option ℚ
  workers : Option (List Worker)
  workersPlanned : Option ℚ
  workersLaunched : Option ℚ
  workersPlannedByGather : Option ℚ

/-- Plan-wide statistics (plan.planStats). -/
structure PlanStats where
  executionTime : Option ℚ
  maxDuration : Option ℚ
  maxRows : Option ℚ
  maxCost : Option ℚ

/-- Plan content: the tree root (content.Plan) and the precomputed
maximum total cost (content.maxTotalCost). -/
structure PlanContent where
  Plan : Node
  maxTotalCost : Option ℚ

/-- The loaded plan (IPlan): planStats plus content. -/
structure IPlan where
  planStats : PlanStats
  content : PlanContent

/-- Highlight dimension selector (HighlightType enum). -/
inductive HighlightType
  | none
  | duration
  | rows
  | cost
deriving DecidableEq

/-- Formatted highlight label.  The duration/rows/cost formatters live in
an unmodelled filters module; the label is kept abstract as the tag of the
formatter applied plus the raw value it was applied to, which is enough to
distinguish a formatted label from null. -/
inductive HighlightLabel
  | durationLabel (q : ℚ)
  | rowsLabel (q : ℚ)
  | costLabel (q : ℚ)
deriving DecidableEq

/-- The two refs written by calculateBar: barWidth (initially 0) and
highlightValue (initially null). -/
structure BarState where
  barWidth : JSNum
  highlightValue : Option HighlightLabel
deriving DecidableEq

/-- Initial values of the calculateBar refs. -/
def initialBarState : BarState :=
  { barWidth := JSNum.num 0, highlightValue := none }

/-- The three refs written by calculateRowsRemoved: rowsRemoved and
rowsRemovedPercent start as NaN, rowsRemovedPercentString as undefined. -/
structure RowsRemovedState where
  rowsRemoved : JSNum
  rowsRemovedPercent : JSNum
  rowsRemovedPercentString : Option String
deriving DecidableEq

/-- Initial values of the rows-removed refs. -/
def initialRowsRemovedState : RowsRemovedState :=
  { rowsRemoved := JSNum.nan, rowsRemovedPercent := JSNum.nan,
    rowsRemovedPercentString := none }

/-- calculateDuration: executionTimePercent := round(exclusiveDuration /
executionTime * 100), where executionTime is plan.planStats.executionTime
with fallback (via JavaScript ||) to the root node's actual total time. -/
def calculateDuration (plan : IPlan) (node : Node) : JSNum :=
  let executionTime := jsOr plan.planStats.executionTime plan.content.Plan.actualTotalTime
  jsRound (jsMul (jsDiv (toJS node.exclusiveDuration) (toJS executionTime)) (JSNum.num 100))

/-- calculateCost: costPercent := round(exclusiveCost / maxTotalCost * 100),
with maxTotalCost read from plan.content. -/
def calculateCost (plan : IPlan) (node : Node) : JSNum :=
  jsRound (jsMul (jsDiv (toJS node.exclusiveCost) (toJS plan.content.maxTotalCost)) (JSNum.num 100))

/-- The two NodeProp keys consulted by rowsRemovedProp (the REVISED
variants of rows removed by filter / by join filter). -/
inductive RRKey
  | filterRevised
  | joinFilterRevised
deriving DecidableEq

/-- Value stored in a node under one of the two rows-removed keys. -/
def rrValue (node : Node) : RRKey → Option ℚ
  | RRKey.filterRevised => node.rowsRemovedByFilterRevised
  | RRKey.joinFilterRevised => node.rowsRemovedByJoinFilterRevised

/-- rowsRemovedProp: the first of the two rows-removed-revised keys present
on the node, if any.  (The source scans Object.keys of the node, whose
order is insertion order; under the documented invariant that at most one
of the two keys exists per node the scan order is irrelevant, and the
filter key is tried first here.) -/
def rowsRemovedProp (node : Node) : Option RRKey :=
  match node.rowsRemovedByFilterRevised, node.rowsRemovedByJoinFilterRevised with
  | some _, _ => some RRKey.filterRevised
  | none, some _ => some RRKey.joinFilterRevised
  | none, none => none

/-- calculateRowsRemoved: when a rows-removed key is present, stores the
removed count, the floored percentage removed / (removed + actual rows)
times 100, and its display string (100 renders as ">99", 0 as "<1",
anything else via toString); when no key is present, nothing is written. -/
def calculateRowsRemoved (node : Node) (st : RowsRemovedState) : RowsRemovedState :=
  match rowsRemovedProp node with
  | none => st
  | some k =>
    let removed := toJS (rrValue node k)
    let actual := toJS node.actualRows
    let pct := jsFloor (jsMul (jsDiv removed (jsAdd removed actual)) (JSNum.num 100))
    { rowsRemoved := removed,
      rowsRemovedPercent := pct,
      rowsRemovedPercentString :=
        if pct = JSNum.num 100 then some ">99"
        else if pct = JSNum.num 0 then some "<1"
        else some (jsToString pct) }

/-- calculateBar: switches on the highlight dimension; for duration, rows
and cost it reads the node's raw metric, and when the metric is undefined
it nulls the label and leaves barWidth alone, otherwise it stores
round(value / planMax * 100) (the rows case additionally coerces a falsy
result to 0 via ||) and a formatted label.  A dimension of none matches no
switch case, so nothing changes. -/
def calculateBar (ht : HighlightType) (plan : IPlan) (node : Node) (st : BarState) : BarState :=
  match ht with
  | HighlightType.none => st
  | HighlightType.duration =>
    match node.exclusiveDuration with
    | none => { st with highlightValue := none }
    | some v =>
      { barWidth := jsRound (jsMul (jsDiv (JSNum.num v) (toJS plan.planStats.maxDuration)) (JSNum.num 100)),
        highlightValue := some (HighlightLabel.durationLabel v) }
  | HighlightType.rows =>
    match node.actualRows with
    | none => { st with highlightValue := none }
    | some v =>
      { barWidth := jsOrNum (jsRound (jsMul (jsDiv (JSNum.num v) (toJS plan.planStats.maxRows)) (JSNum.num 100))) (JSNum.num 0),
        highlightValue := some (HighlightLabel.rowsLabel v) }
  | HighlightType.cost =>
    match node.exclusiveCost with
    | none => { st with highlightValue := none }
    | some v =>
      { barWidth := jsRound (jsMul (jsDiv (JSNum.num v) (toJS plan.planStats.maxCost)) (JSNum.num 100)),
        highlightValue := some (HighlightLabel.costLabel v) }

/-- durationClass: threshold ladder over the stored executionTimePercent,
strictly-greater-than checks in descending order; returns the CSS class
"c-4" / "c-3" / "c-2" or false (modelled as none). -/
def durationClass (i : JSNum) : Option String :=
  if jsGt i (JSNum.num 90) then some "c-4"
  else if jsGt i (JSNum.num 40) then some "c-3"
  else if jsGt i (JSNum.num 10) then some "c-2"
  else none

/-- estimationClass: same ladder shape over the node's planner estimate
factor, with thresholds 1000 / 100 / 10. -/
def estimationClass (node : Node) : Option String :=
  let i := toJS node.plannerEstimateFactor
  if jsGt i (JSNum.num 1000) then some "c-4"
  else if jsGt i (JSNum.num 100) then some "c-3"
  else if jsGt i (JSNum.num 10) then some "c-2"
  else none

/-- costClass: ladder over the stored costPercent, thresholds 90/40/10. -/
def costClass (i : JSNum) : Option String :=
  if jsGt i (JSNum.num 90) then some "c-4"
  else if jsGt i (JSNum.num 40) then some "c-3"
  else if jsGt i (JSNum.num 10) then some "c-2"
  else none

/-- rowsRemovedClass: ladder over rowsRemovedPercent * executionTimePercent
with thresholds 2000 / 500 and no low tier. -/
def rowsRemovedClass (rowsRemovedPercent executionTimePercent : JSNum) : Option String :=
  let i := jsMul rowsRemovedPercent executionTimePercent
  if jsGt i (JSNum.num 2000) then some "c-4"
  else if jsGt i (JSNum.num 500) then some "c-3"
  else none

/-- Heap-fetch percentage computed inside heapFetchesClass: heap fetches
over actual rows plus the (|| 0 defaulted) plain rows-removed counters,
times 100. -/
def heapFetchesPct (node : Node) : JSNum :=
  jsMul
    (jsDiv (toJS node.heapFetches)
      (jsAdd (jsAdd (toJS node.actualRows)
                    (jsOrNum (toJS node.rowsRemovedByFilter) (JSNum.num 0)))
             (jsOrNum (toJS node.rowsRemovedByJoinFilter) (JSNum.num 0))))
    (JSNum.num 100)

/-- heapFetchesClass: ladder over the heap-fetch percentage, thresholds
90/40/10. -/
def heapFetchesClass (node : Node) : Option String :=
  let i := heapFetchesPct node
  if jsGt i (JSNum.num 90) then some "c-4"
  else if jsGt i (JSNum.num 40) then some "c-3"
  else if jsGt i (JSNum.num 10) then some "c-2"
  else none

/-- workersLaunchedCount: length of the node's workers list when the list
is present (an array, even empty, is truthy), NaN when it is absent. -/
def workersLaunchedCount (node : Node) : JSNum :=
  match node.workers with
  | some ws => JSNum.num (ws.length : ℚ)
  | none => JSNum.nan

/-- allWorkersLaunched: the node's WORKERS_LAUNCHED property is falsy, or
WORKERS_PLANNED is strictly equal to WORKERS_LAUNCHED (JavaScript ===,
under which undefined === undefined holds). -/
def allWorkersLaunched (node : Node) : Bool :=
  !truthyOpt node.workersLaunched
    || decide (node.workersPlanned = node.workersLaunched)

/-- isNeverExecuted: the plan-level execution time is truthy and the node's
actual loops count is falsy. -/
def isNeverExecuted (plan : IPlan) (node : Node) : Bool :=
  truthyOpt plan.planStats.executionTime && !truthyOpt node.actualLoops

/-- Severity tiers in the spec's ordering. -/
inductive Tier
  | none
  | low
  | medium
  | high
  | critical
deriving DecidableEq, Repr

/-- Rank of a tier under none < low < medium < high < critical. -/
def Tier.rank : Tier → Nat
  | Tier.none => 0
  | Tier.low => 1
  | Tier.medium => 2
  | Tier.high => 3
  | Tier.critical => 4

/-- Tier denoted by a classifier result: the CSS classes c-2 / c-3 / c-4
stand for low / medium / high (the highest class the classifiers emit),
and a false (none) result stands for tier none. -/
def tierOf (c : Option String) : Tier :=
  match c with
  | some s =>
      if s = "c-2" then Tier.low
      else if s = "c-3" then Tier.medium
      else if s = "c-4" then Tier.high
      else Tier.none
  | none => Tier.none

/-- Node with every property absent. -/
def emptyNode : Node :=
  { exclusiveDuration := none, exclusiveCost := none, actualRows := none,
    actualTotalTime := none, actualLoops := none, plannerEstimateFactor := none,
    heapFetches := none, rowsRemovedByFilter := none, rowsRemovedByJoinFilter := none,
    rowsRemovedByFilterRevised := none, rowsRemovedByJoinFilterRevised := none,
    workers := none, workersPlanned := none, workersLaunched := none,
    workersPlannedByGather := none }

/-- Plan stats with every statistic absent. -/
def emptyStats : PlanStats :=
  { executionTime := none, maxDuration := none, maxRows := none, maxCost := none }

/-- Plan with no telemetry at all. -/
def emptyPlan : IPlan :=
  { planStats := emptyStats, content := { Plan := emptyNode, maxTotalCost := none } }

/-- Node whose exclusive duration is 150 ms. -/
def nodeDur150 : Node := { emptyNode with exclusiveDuration := some 150 }

/-- Plan whose recorded maximum duration is 100 ms. -/
def planMaxDur100 : IPlan :=
  { emptyPlan with planStats := { emptyStats with maxDuration := some 100 } }

/-- Node whose exclusive duration is 5 ms. -/
def nodeDur5 : Node := { emptyNode with exclusiveDuration := some 5 }

/-- Plan whose recorded maximum duration is 0. -/
def planMaxDur0 : IPlan :=
  { emptyPlan with planStats := { emptyStats with maxDuration := some 0 } }

/-- Node with 999999 rows removed by filter (revised) and 1 actual row. -/
def nodeRemoved999999 : Node :=
  { emptyNode with rowsRemovedByFilterRevised := some 999999, actualRows := some 1 }

/-- Node with 50 rows removed by filter (revised) and 50 actual rows. -/
def nodeRemoved50 : Node :=
  { emptyNode with rowsRemovedByFilterRevised := some 50, actualRows := some 50 }

/-- Node with a two-element workers list. -/
def nodeWorkers2 : Node :=
  { emptyNode with workers := some [Worker.mk, Worker.mk] }

/-- Node with planner estimate factor 5. -/
def nodeFactor5 : Node := { emptyNode with plannerEstimateFactor := some 5 }

/-- Node with planner estimate factor 50. -/
def nodeFactor50 : Node := { emptyNode with plannerEstimateFactor := some 50 }

/-- Node with planner estimate factor 500. -/
def nodeFactor500 : Node := { emptyNode with plannerEstimateFactor := some 500 }

/-- Node with planner estimate factor 5000. -/
def nodeFactor5000 : Node := { emptyNode with plannerEstimateFactor := some 5000 }

/-- Node with 95 heap fetches against 100 actual rows. -/
def nodeHeap95 : Node :=
  { emptyNode with heapFetches := some 95, actualRows := some 100 }

/-- Plan whose recorded execution time is 200 ms. -/
def planExec200 : IPlan :=
  { emptyPlan with planStats := { emptyStats with executionTime := some 200 } }

/-- Plan whose recorded maximum duration is 200 ms. -/
def planMaxDur200 : IPlan :=
  { emptyPlan with planStats := { emptyStats with maxDuration := some 200 } }

/-- Bar state carrying a fraction computed for a previously selected
dimension. -/
def persistedState : BarState :=
  { barWidth := JSNum.num 42, highlightValue := some (HighlightLabel.durationLabel 7) }

/-- Discriminator for finite (non-NaN, non-infinite) results: the values
this development treats as defined. -/
def JSNum.isNum : JSNum → Bool
  | JSNum.num _ => true
  | _ => false

section Lemmas

/-- Reduction lemma: coercing an absent value yields NaN. -/
@[simp] theorem toJS_none : toJS none = JSNum.nan := rfl

/-- Reduction lemma: coercing a present value yields that number. -/
@[simp] theorem toJS_some (q : ℚ) : toJS (some q) = JSNum.num q := rfl

/-- NaN on the left of a division propagates. -/
@[simp] theorem jsDiv_nan_left (x : JSNum) : jsDiv JSNum.nan x = JSNum.nan := by
  cases x <;> rfl

/-- NaN on the right of a division propagates. -/
@[simp] theorem jsDiv_nan_right (x : JSNum) : jsDiv x JSNum.nan = JSNum.nan := by
  cases x <;> rfl

/-- Finite division by a nonzero finite number is exact rational division. -/
theorem jsDiv_num_num {b : ℚ} (a : ℚ) (hb : b ≠ 0) :
    jsDiv (JSNum.num a) (JSNum.num b) = JSNum.num (a / b) := by
  simp [jsDiv, hb]

/-- NaN on the left of a multiplication propagates. -/
@[simp] theorem jsMul_nan_left (x : JSNum) : jsMul JSNum.nan x = JSNum.nan := by
  cases x <;> rfl

/-- NaN on the right of a multiplication propagates. -/
@[simp] theorem jsMul_nan_right (x : JSNum) : jsMul x JSNum.nan = JSNum.nan := by
  cases x <;> rfl

/-- Finite multiplication is exact rational multiplication. -/
@[simp] theorem jsMul_num_num (a b : ℚ) :
    jsMul (JSNum.num a) (JSNum.num b) = JSNum.num (a * b) := rfl

/-- NaN on the left of an addition propagates. -/
@[simp] theorem jsAdd_nan_left (x : JSNum) : jsAdd JSNum.nan x = JSNum.nan := by
  cases x <;> rfl

/-- NaN on the right of an addition propagates. -/
@[simp] theorem jsAdd_nan_right (x : JSNum) : jsAdd x JSNum.nan = JSNum.nan := by
  cases x <;> rfl

/-- Finite addition is exact rational addition. -/
@[simp] theorem jsAdd_num_num (a b : ℚ) :
    jsAdd (JSNum.num a) (JSNum.num b) = JSNum.num (a + b) := rfl

/-- Rounding NaN gives NaN. -/
@[simp] theorem jsRound_nan : jsRound JSNum.nan = JSNum.nan := rfl

/-- Rounding a finite number takes the floor after adding one half. -/
@[simp] theorem jsRound_num (q : ℚ) :
    jsRound (JSNum.num q) = JSNum.num ((⌊q + 1/2⌋ : ℤ) : ℚ) := rfl

/-- Flooring NaN gives NaN. -/
@[simp] theorem jsFloor_nan : jsFloor JSNum.nan = JSNum.nan := rfl

/-- Flooring a finite number is the integer floor. -/
@[simp] theorem jsFloor_num (q : ℚ) :
    jsFloor (JSNum.num q) = JSNum.num ((⌊q⌋ : ℤ) : ℚ) := rfl

/-- Comparison between finite numbers decides the rational order. -/
@[simp] theorem jsGt_num_num (a b : ℚ) :
    jsGt (JSNum.num a) (JSNum.num b) = decide (b < a) := rfl

/-- Comparison with NaN on the left is false. -/
@[simp] theorem jsGt_nan_left (x : JSNum) : jsGt JSNum.nan x = false := by
  cases x <;> rfl

/-- Comparison with NaN on the right is false. -/
@[simp] theorem jsGt_nan_right (x : JSNum) : jsGt x JSNum.nan = false := by
  cases x <;> rfl

/-- A NaN left operand of JavaScript or-else yields the right operand. -/
@[simp] theorem jsOrNum_nan (x : JSNum) : jsOrNum JSNum.nan x = x := rfl

/-- Falsiness of an optional number means absent or zero. -/
theorem truthyOpt_eq_false_iff (o : Option ℚ) :
    truthyOpt o = false ↔ (o = none ∨ o = some 0) := by
  cases o <;> simp [truthyOpt]

/-- Evaluation of the tier denoted by class c-4. -/
@[simp] theorem tierOf_c4 : tierOf (some "c-4") = Tier.high := by decide

/-- Evaluation of the tier denoted by class c-3. -/
@[simp] theorem tierOf_c3 : tierOf (some "c-3") = Tier.medium := by decide

/-- Evaluation of the tier denoted by class c-2. -/
@[simp] theorem tierOf_c2 : tierOf (some "c-2") = Tier.low := by decide

/-- Evaluation of the tier denoted by a false classifier result. -/
@[simp] theorem tierOf_false : tierOf none = Tier.none := rfl

/-- Characterization of a three-rung strictly-greater-than ladder with
ascending thresholds: each tier corresponds to a half-open interval of the
metric. -/
theorem ladderChars (t1 t2 t3 q : ℚ) (h12 : t1 < t2) (h23 : t2 < t3)
    (c : Option String)
    (hc : c = if jsGt (JSNum.num q) (JSNum.num t3) then some "c-4"
          else if jsGt (JSNum.num q) (JSNum.num t2) then some "c-3"
          else if jsGt (JSNum.num q) (JSNum.num t1) then some "c-2"
          else none) :
    (tierOf c = Tier.high ↔ t3 < q) ∧
    (tierOf c = Tier.medium ↔ t2 < q ∧ q ≤ t3) ∧
    (tierOf c = Tier.low ↔ t1 < q ∧ q ≤ t2) ∧
    (tierOf c = Tier.none ↔ q ≤ t1) := by
  subst hc
  simp only [jsGt_num_num, decide_eq_true_eq]
  split_ifs with h3 h2 h1
  · simp only [tierOf_c4]
    refine ⟨iff_of_true (by trivial) h3, ?_, ?_, ?_⟩
    · exact iff_of_false (by decide) (fun h => by linarith [h.2])
    · exact iff_of_false (by decide) (fun h => by linarith [h.2])
    · exact iff_of_false (by decide) (fun hq => by linarith)
  · simp only [tierOf_c3]
    refine ⟨?_, iff_of_true (by trivial) ⟨h2, not_lt.mp h3⟩, ?_, ?_⟩
    · exact iff_of_false (by decide) (fun hq => absurd hq h3)
    · exact iff_of_false (by decide) (fun h => by linarith [h.2])
    · exact iff_of_false (by decide) (fun hq => by linarith)
  · simp only [tierOf_c2]
    refine ⟨?_, ?_, iff_of_true (by trivial) ⟨h1, not_lt.mp h2⟩, ?_⟩
    · exact iff_of_false (by decide) (fun hq => absurd hq h3)
    · exact iff_of_false (by decide) (fun h => absurd h.1 h2)
    · exact iff_of_false (by decide) (fun hq => by linarith)
  · simp only [tierOf_false]
    refine ⟨?_, ?_, ?_, iff_of_true (by trivial) (not_lt.mp h1)⟩
    · exact iff_of_false (by decide) (fun hq => absurd hq h3)
    · exact iff_of_false (by decide) (fun h => absurd h.1 h2)
    · exact iff_of_false (by decide) (fun h => absurd h.1 h1)

/-- Monotonicity of a three-rung strictly-greater-than ladder: a larger
metric never lands in a strictly smaller tier. -/
theorem ladderRank_mono (t1 t2 t3 x y : ℚ) (hxy : x ≤ y) (cx cy : Option String)
    (hcx : cx = if jsGt (JSNum.num x) (JSNum.num t3) then some "c-4"
           else if jsGt (JSNum.num x) (JSNum.num t2) then some "c-3"
           else if jsGt (JSNum.num x) (JSNum.num t1) then some "c-2"
           else none)
    (hcy : cy = if jsGt (JSNum.num y) (JSNum.num t3) then some "c-4"
           else if jsGt (JSNum.num y) (JSNum.num t2) then some "c-3"
           else if jsGt (JSNum.num y) (JSNum.num t1) then some "c-2"
           else none) :
    (tierOf cx).rank ≤ (tierOf cy).rank := by
  subst hcx hcy
  simp only [jsGt_num_num, decide_eq_true_eq]
  split_ifs <;>
    first
      | (exfalso; linarith)
      | simp [tierOf, Tier.rank]

/-- Monotonicity of the two-rung rows-removed ladder. -/
theorem rrLadderRank_mono (x y : ℚ) (hxy : x ≤ y) (cx cy : Option String)
    (hcx : cx = if jsGt (JSNum.num x) (JSNum.num 2000) then some "c-4"
           else if jsGt (JSNum.num x) (JSNum.num 500) then some "c-3"
           else none)
    (hcy : cy = if jsGt (JSNum.num y) (JSNum.num 2000) then some "c-4"
           else if jsGt (JSNum.num y) (JSNum.num 500) then some "c-3"
           else none) :
    (tierOf cx).rank ≤ (tierOf cy).rank := by
  subst hcx hcy
  simp only [jsGt_num_num, decide_eq_true_eq]
  split_ifs <;>
    first
      | (exfalso; linarith)
      | simp [tierOf, Tier.rank]

/-- Characterization of the two-rung rows-removed ladder. -/
theorem rrLadderChars (q : ℚ) (c : Option String)
    (hc : c = if jsGt (JSNum.num q) (JSNum.num 2000) then some "c-4"
          else if jsGt (JSNum.num q) (JSNum.num 500) then some "c-3"
          else none) :
    (tierOf c = Tier.high ↔ 2000 < q) ∧
    (tierOf c = Tier.medium ↔ 500 < q ∧ q ≤ 2000) ∧
    (tierOf c = Tier.none ↔ q ≤ 500) ∧
    tierOf c ≠ Tier.low := by
  subst hc
  simp only [jsGt_num_num, decide_eq_true_eq]
  split_ifs with h2 h1
  · simp only [tierOf_c4]
    refine ⟨iff_of_true (by trivial) h2, ?_, ?_, by decide⟩
    · exact iff_of_false (by decide) (fun h => by linarith [h.2])
    · exact iff_of_false (by decide) (fun hq => by linarith)
  · simp only [tierOf_c3]
    refine ⟨?_, iff_of_true (by trivial) ⟨h1, not_lt.mp h2⟩, ?_, by decide⟩
    · exact iff_of_false (by decide) (fun hq => absurd hq h2)
    · exact iff_of_false (by decide) (fun hq => by linarith)
  · simp only [tierOf_false]
    refine ⟨?_, ?_, iff_of_true (by trivial) (not_lt.mp h1), by decide⟩
    · exact iff_of_false (by decide) (fun hq => absurd hq h2)
    · exact iff_of_false (by decide) (fun h => absurd h.1 h1)

/-- JavaScript or-else of a finite number with 0 is the number itself. -/
@[simp] theorem jsOrNum_num_zero (a : ℚ) :
    jsOrNum (JSNum.num a) (JSNum.num 0) = JSNum.num a := by
  by_cases h : a = 0 <;> simp [jsOrNum, truthy, h]

/-- Stringifying an integral JS number produces its decimal digits. -/
@[simp] theorem jsToString_intCast (i : ℤ) :
    jsToString (JSNum.num (i : ℚ)) = intRepr i := by
  simp [jsToString, Rat.den_intCast, Rat.num_intCast]

/-- Bounds of the rounded percentage: the value v against a positive
maximum M with 0 ≤ v ≤ M rounds into the integer range 0..100. -/
theorem roundPct_bounds (v M : ℚ) (hv0 : 0 ≤ v) (hvM : v ≤ M) (hM : 0 < M) :
    0 ≤ (⌊v / M * 100 + 1/2⌋ : ℤ) ∧ (⌊v / M * 100 + 1/2⌋ : ℤ) ≤ 100 := by
  have h1 : (0:ℚ) ≤ v / M := div_nonneg hv0 (le_of_lt hM)
  have h2 : v / M ≤ 1 := (div_le_one hM).mpr hvM
  have h3 : v / M * 100 ≤ 100 := by nlinarith
  constructor
  · exact Int.floor_nonneg.mpr (by nlinarith)
  · have hlt : v / M * 100 + 1/2 < ((101 : ℤ) : ℚ) := by push_cast; linarith
    have := Int.floor_lt.mpr hlt
    omega

/-- Division of a zero numerator by a zero denominator is NaN. -/
@[simp] theorem jsDiv_zero_zero : jsDiv (JSNum.num 0) (JSNum.num 0) = JSNum.nan := by
  simp [jsDiv]

/-- No decimal rendering of a natural number below 100 collides with the
sentinel display strings. -/
theorem natRepr_small_ne : ∀ n : ℕ, n < 100 → Nat.repr n ≠ "<1" ∧ Nat.repr n ≠ ">99" := by
  decide

/-- Pointwise evaluation of calculateRowsRemoved when a rows-removed key
with value r and the actual-rows count a are present and r + a is not
zero. -/
theorem calculateRowsRemoved_eval (node : Node) (st : RowsRemovedState) (k : RRKey) (r a : ℚ)
    (hk : rowsRemovedProp node = some k) (hr : rrValue node k = some r)
    (ha : node.actualRows = some a) (hsum : r + a ≠ 0) :
    calculateRowsRemoved node st =
      { rowsRemoved := JSNum.num r,
        rowsRemovedPercent := JSNum.num ((⌊r / (r + a) * 100⌋ : ℤ) : ℚ),
        rowsRemovedPercentString :=
          if ((⌊r / (r + a) * 100⌋ : ℤ) : ℚ) = 100 then some ">99"
          else if ((⌊r / (r + a) * 100⌋ : ℤ) : ℚ) = 0 then some "<1"
          else some (intRepr ⌊r / (r + a) * 100⌋) } := by
  unfold calculateRowsRemoved
  rw [hk]
  simp only [hr, ha, toJS_some, jsAdd_num_num, jsDiv_num_num r hsum, jsMul_num_num,
    jsFloor_num, JSNum.num.injEq, jsToString_intCast]

end Lemmas

/-- C7: isNeverExecuted is true exactly when the plan-level execution time
is truthy and the node's actual-loops count is zero or absent; and on any
plan whose execution time is absent it is false for every node. -/
theorem isNeverExecuted_iff (plan : IPlan) (node : Node) :
    (isNeverExecuted plan node = true ↔
      (truthyOpt plan.planStats.executionTime = true ∧
        (node.actualLoops = none ∨ node.actualLoops = some 0))) ∧
    isNeverExecuted { plan with planStats := { plan.planStats with executionTime := none } } node = false := by
  refine ⟨?_, rfl⟩
  rw [isNeverExecuted, Bool.and_eq_true, Bool.not_eq_true']
  rw [truthyOpt_eq_false_iff]

/-- C9: workersLaunchedCount is the length of the workers list when the
list is present and NaN (not 0) when absent; allWorkersLaunched holds
exactly when the workers-launched property is absent or zero, or equals
the workers-planned property. -/
theorem workersLaunched_spec :
    (∀ (node : Node) (ws : List Worker), node.workers = some ws →
       workersLaunchedCount node = JSNum.num (ws.length : ℚ)) ∧
    (∀ node : Node, node.workers = none →
       workersLaunchedCount node = JSNum.nan ∧ JSNum.nan ≠ JSNum.num 0) ∧
    (∀ node : Node,
       allWorkersLaunched node = true ↔
         (node.workersLaunched = none ∨ node.workersLaunched = some 0 ∨
           node.workersPlanned = node.workersLaunched)) := by
  refine ⟨?_, ?_, ?_⟩
  · intro node ws h
    simp [workersLaunchedCount, h]
  · intro node h
    refine ⟨by simp [workersLaunchedCount, h], by simp⟩
  · intro node
    rw [allWorkersLaunched, Bool.or_eq_true, Bool.not_eq_true']
    rw [truthyOpt_eq_false_iff]
    simp [or_assoc]

/-- Witness for C9 at concrete nodes: a two-worker list counts as 2, and an
absent list yields NaN. -/
theorem workersLaunched_spec_witness :
    workersLaunchedCount nodeWorkers2 = JSNum.num 2 ∧
    (workersLaunchedCount emptyNode = JSNum.nan ∧ JSNum.nan ≠ JSNum.num 0) := by
  constructor
  · have h := workersLaunched_spec.1 nodeWorkers2 [Worker.mk, Worker.mk] rfl
    simpa using h
  · exact workersLaunched_spec.2.1 emptyNode rfl

/-- C5: each severity classifier is a strictly-greater-than descending
threshold ladder where the first match wins: duration percent, cost percent
and the heap-fetch percentage use thresholds 10 (low), 40 (medium),
90 (high); the estimation factor uses 10, 100, 1000; and the rows-removed
composite (rows-removed percent times duration percent) is medium above 500
and high above 2000 with no low tier. -/
theorem severity_thresholds (q : ℚ) (node : Node) (p d : JSNum) :
    ((tierOf (durationClass (JSNum.num q)) = Tier.high ↔ 90 < q) ∧
     (tierOf (durationClass (JSNum.num q)) = Tier.medium ↔ 40 < q ∧ q ≤ 90) ∧
     (tierOf (durationClass (JSNum.num q)) = Tier.low ↔ 10 < q ∧ q ≤ 40) ∧
     (tierOf (durationClass (JSNum.num q)) = Tier.none ↔ q ≤ 10)) ∧
    ((tierOf (costClass (JSNum.num q)) = Tier.high ↔ 90 < q) ∧
     (tierOf (costClass (JSNum.num q)) = Tier.medium ↔ 40 < q ∧ q ≤ 90) ∧
     (tierOf (costClass (JSNum.num q)) = Tier.low ↔ 10 < q ∧ q ≤ 40) ∧
     (tierOf (costClass (JSNum.num q)) = Tier.none ↔ q ≤ 10)) ∧
    (node.plannerEstimateFactor = some q →
      (tierOf (estimationClass node) = Tier.high ↔ 1000 < q) ∧
      (tierOf (estimationClass node) = Tier.medium ↔ 100 < q ∧ q ≤ 1000) ∧
      (tierOf (estimationClass node) = Tier.low ↔ 10 < q ∧ q ≤ 100) ∧
      (tierOf (estimationClass node) = Tier.none ↔ q ≤ 10)) ∧
    (heapFetchesPct node = JSNum.num q →
      (tierOf (heapFetchesClass node) = Tier.high ↔ 90 < q) ∧
      (tierOf (heapFetchesClass node) = Tier.medium ↔ 40 < q ∧ q ≤ 90) ∧
      (tierOf (heapFetchesClass node) = Tier.low ↔ 10 < q ∧ q ≤ 40) ∧
      (tierOf (heapFetchesClass node) = Tier.none ↔ q ≤ 10)) ∧
    (jsMul p d = JSNum.num q →
      (tierOf (rowsRemovedClass p d) = Tier.high ↔ 2000 < q) ∧
      (tierOf (rowsRemovedClass p d) = Tier.medium ↔ 500 < q ∧ q ≤ 2000) ∧
      (tierOf (rowsRemovedClass p d) = Tier.none ↔ q ≤ 500) ∧
      tierOf (rowsRemovedClass p d) ≠ Tier.low) := by
  refine ⟨?_, ?_, ?_, ?_, ?_⟩
  · exact ladderChars 10 40 90 q (by norm_num) (by norm_num) _ rfl
  · exact ladderChars 10 40 90 q (by norm_num) (by norm_num) _ rfl
  · intro h
    refine ladderChars 10 100 1000 q (by norm_num) (by norm_num) _ ?_
    simp only [estimationClass, h, toJS_some]
  · intro h
    refine ladderChars 10 40 90 q (by norm_num) (by norm_num) _ ?_
    simp only [heapFetchesClass, h]
  · intro h
    refine rrLadderChars q _ ?_
    simp only [rowsRemovedClass, h]

/-- Witness for C5 at concrete metric values: duration 95 is high, cost 50
is medium, estimation factor 500 is medium, a 95 percent heap-fetch node is
high, and a rows-removed composite of 2500 is high. -/
theorem severity_thresholds_witness :
    tierOf (durationClass (JSNum.num 95)) = Tier.high ∧
    tierOf (costClass (JSNum.num 50)) = Tier.medium ∧
    tierOf (estimationClass nodeFactor500) = Tier.medium ∧
    tierOf (heapFetchesClass nodeHeap95) = Tier.high ∧
    tierOf (rowsRemovedClass (JSNum.num 50) (JSNum.num 50)) = Tier.high := by
  refine ⟨?_, ?_, ?_, ?_, ?_⟩
  · exact (severity_thresholds 95 emptyNode JSNum.nan JSNum.nan).1.1.mpr (by norm_num)
  · exact (severity_thresholds 50 emptyNode JSNum.nan JSNum.nan).2.1.2.1.mpr (by norm_num)
  · exact ((severity_thresholds 500 nodeFactor500 JSNum.nan JSNum.nan).2.2.1 rfl).2.1.mpr (by norm_num)
  · refine ((severity_thresholds 95 nodeHeap95 JSNum.nan JSNum.nan).2.2.2.1 ?_).1.mpr (by norm_num)
    norm_num [heapFetchesPct, nodeHeap95, emptyNode, jsDiv_num_num]
  · refine ((severity_thresholds 2500 emptyNode (JSNum.num 50) (JSNum.num 50)).2.2.2.2 ?_).1.mpr (by norm_num)
    norm_num

/-- C6: a metric whose underlying value is undefined classifies as tier
none: with an absent exclusive duration or cost the computed percentage is
NaN and the ladder yields none, an absent estimate factor or heap-fetches
count yields none, and the rows-removed composite yields none whenever
either of its factors is NaN.  (The classifiers are total functions, so no
input can crash them; a none result is the falsy value the template uses
to omit the badge.) -/
theorem undefined_metric_tier_none (plan : IPlan) (node : Node) (p d : JSNum) :
    (node.exclusiveDuration = none →
      calculateDuration plan node = JSNum.nan ∧
      tierOf (durationClass (calculateDuration plan node)) = Tier.none) ∧
    (node.exclusiveCost = none →
      calculateCost plan node = JSNum.nan ∧
      tierOf (costClass (calculateCost plan node)) = Tier.none) ∧
    (node.plannerEstimateFactor = none → tierOf (estimationClass node) = Tier.none) ∧
    (node.heapFetches = none → tierOf (heapFetchesClass node) = Tier.none) ∧
    tierOf (rowsRemovedClass JSNum.nan d) = Tier.none ∧
    tierOf (rowsRemovedClass p JSNum.nan) = Tier.none := by
  refine ⟨?_, ?_, ?_, ?_, ?_, ?_⟩
  · intro h
    have hnan : calculateDuration plan node = JSNum.nan := by
      simp [calculateDuration, h]
    rw [hnan]
    exact ⟨rfl, by simp [durationClass]⟩
  · intro h
    have hnan : calculateCost plan node = JSNum.nan := by
      simp [calculateCost, h]
    rw [hnan]
    exact ⟨rfl, by simp [costClass]⟩
  · intro h
    simp [estimationClass, h]
  · intro h
    simp [heapFetchesClass, heapFetchesPct, h]
  · simp [rowsRemovedClass]
  · simp [rowsRemovedClass]

/-- Witness for C6 at concrete inputs with every relevant field absent. -/
theorem undefined_metric_tier_none_witness :
    tierOf (durationClass (calculateDuration emptyPlan emptyNode)) = Tier.none ∧
    tierOf (costClass (calculateCost emptyPlan emptyNode)) = Tier.none ∧
    tierOf (estimationClass emptyNode) = Tier.none ∧
    tierOf (heapFetchesClass emptyNode) = Tier.none ∧
    tierOf (rowsRemovedClass JSNum.nan (JSNum.num 50)) = Tier.none ∧
    tierOf (rowsRemovedClass (JSNum.num 50) JSNum.nan) = Tier.none := by
  have h := undefined_metric_tier_none emptyPlan emptyNode (JSNum.num 50) (JSNum.num 50)
  exact ⟨(h.1 rfl).2, (h.2.1 rfl).2, h.2.2.1 rfl, h.2.2.2.1 rfl,
    h.2.2.2.2.1, h.2.2.2.2.2⟩

/-- C8: every severity classifier is monotone in its defined metric under
the tier ordering none < low < medium < high < critical, and the spec's
estimation examples hold: factor 5 is none, 50 low, 500 medium, 5000
high. -/
theorem severity_monotone :
    (∀ x y : ℚ, x ≤ y →
      (tierOf (durationClass (JSNum.num x))).rank ≤ (tierOf (durationClass (JSNum.num y))).rank) ∧
    (∀ x y : ℚ, x ≤ y →
      (tierOf (costClass (JSNum.num x))).rank ≤ (tierOf (costClass (JSNum.num y))).rank) ∧
    (∀ (n m : Node) (x y : ℚ), n.plannerEstimateFactor = some x →
      m.plannerEstimateFactor = some y → x ≤ y →
      (tierOf (estimationClass n)).rank ≤ (tierOf (estimationClass m)).rank) ∧
    (∀ (n m : Node) (x y : ℚ), heapFetchesPct n = JSNum.num x →
      heapFetchesPct m = JSNum.num y → x ≤ y →
      (tierOf (heapFetchesClass n)).rank ≤ (tierOf (heapFetchesClass m)).rank) ∧
    (∀ (p1 d1 p2 d2 : JSNum) (x y : ℚ), jsMul p1 d1 = JSNum.num x →
      jsMul p2 d2 = JSNum.num y → x ≤ y →
      (tierOf (rowsRemovedClass p1 d1)).rank ≤ (tierOf (rowsRemovedClass p2 d2)).rank) ∧
    (tierOf (estimationClass nodeFactor5) = Tier.none ∧
     tierOf (estimationClass nodeFactor50) = Tier.low ∧
     tierOf (estimationClass nodeFactor500) = Tier.medium ∧
     tierOf (estimationClass nodeFactor5000) = Tier.high) := by
  refine ⟨?_, ?_, ?_, ?_, ?_, by decide⟩
  · intro x y hxy
    exact ladderRank_mono 10 40 90 x y hxy _ _ rfl rfl
  · intro x y hxy
    exact ladderRank_mono 10 40 90 x y hxy _ _ rfl rfl
  · intro n m x y hn hm hxy
    refine ladderRank_mono 10 100 1000 x y hxy _ _ ?_ ?_
    · simp only [estimationClass, hn, toJS_some]
    · simp only [estimationClass, hm, toJS_some]
  · intro n m x y hn hm hxy
    refine ladderRank_mono 10 40 90 x y hxy _ _ ?_ ?_
    · simp only [heapFetchesClass, hn]
    · simp only [heapFetchesClass, hm]
  · intro p1 d1 p2 d2 x y h1 h2 hxy
    refine rrLadderRank_mono x y hxy _ _ ?_ ?_
    · simp only [rowsRemovedClass, h1]
    · simp only [rowsRemovedClass, h2]

/-- Witness for C8 at concrete metric values 15 versus 95 (duration) and
estimation factors 50 versus 5000. -/
theorem severity_monotone_witness :
    (tierOf (durationClass (JSNum.num 15))).rank ≤ (tierOf (durationClass (JSNum.num 95))).rank ∧
    (tierOf (estimationClass nodeFactor50)).rank ≤ (tierOf (estimationClass nodeFactor5000)).rank := by
  constructor
  · exact severity_monotone.1 15 95 (by norm_num)
  · exact severity_monotone.2.2.1 nodeFactor50 nodeFactor5000 50 5000 rfl rfl (by norm_num)

/-- Counterexample to C1 as stated: the bar fraction is not clamped to
100 — a node duration of 150 against a recorded maximum of 100 stores 150 —
and a maximum of 0 yields Infinity for a positive duration, not 0. -/
theorem calculateBar_no_clamp_cex :
    (calculateBar HighlightType.duration planMaxDur100 nodeDur150 initialBarState).barWidth
      = JSNum.num 150 ∧
    ¬ (150 : ℚ) ≤ 100 ∧
    (calculateBar HighlightType.duration planMaxDur0 nodeDur5 initialBarState).barWidth
      = JSNum.posInf := by
  refine ⟨?_, by norm_num, ?_⟩
  · show jsRound (jsMul (jsDiv (JSNum.num 150) (JSNum.num 100)) (JSNum.num 100))
      = JSNum.num 150
    rw [jsDiv_num_num 150 (by norm_num : (100:ℚ) ≠ 0), jsMul_num_num, jsRound_num]
    norm_num
  · show jsRound (jsMul (jsDiv (JSNum.num 5) (JSNum.num 0)) (JSNum.num 100))
      = JSNum.posInf
    norm_num [jsDiv, jsMul, jsRound]

/-- C1 amended: the bar fraction is round(value / max * 100) with no
clamping; whenever the recorded per-dimension maximum is positive and the
node's raw value lies between 0 and that maximum, the stored fraction is an
integer in the range 0..100, for each of the three dimensions.  (When the
raw value exceeds the maximum the unclamped fraction exceeds 100, and a
zero maximum produces Infinity or NaN rather than 0 except in the rows
dimension where NaN is coerced to 0: see the counterexample.) -/
theorem calculateBar_fraction_in_range (plan : IPlan) (node : Node) (st : BarState) (v M : ℚ)
    (hv0 : 0 ≤ v) (hvM : v ≤ M) (hM : 0 < M) :
    (node.exclusiveDuration = some v → plan.planStats.maxDuration = some M →
      (calculateBar HighlightType.duration plan node st).barWidth
        = JSNum.num ((⌊v / M * 100 + 1/2⌋ : ℤ) : ℚ) ∧
      0 ≤ (⌊v / M * 100 + 1/2⌋ : ℤ) ∧ (⌊v / M * 100 + 1/2⌋ : ℤ) ≤ 100) ∧
    (node.actualRows = some v → plan.planStats.maxRows = some M →
      (calculateBar HighlightType.rows plan node st).barWidth
        = JSNum.num ((⌊v / M * 100 + 1/2⌋ : ℤ) : ℚ) ∧
      0 ≤ (⌊v / M * 100 + 1/2⌋ : ℤ) ∧ (⌊v / M * 100 + 1/2⌋ : ℤ) ≤ 100) ∧
    (node.exclusiveCost = some v → plan.planStats.maxCost = some M →
      (calculateBar HighlightType.cost plan node st).barWidth
        = JSNum.num ((⌊v / M * 100 + 1/2⌋ : ℤ) : ℚ) ∧
      0 ≤ (⌊v / M * 100 + 1/2⌋ : ℤ) ∧ (⌊v / M * 100 + 1/2⌋ : ℤ) ≤ 100) := by
  have hMne : M ≠ 0 := ne_of_gt hM
  have hbounds := roundPct_bounds v M hv0 hvM hM
  refine ⟨fun h1 h2 => ⟨?_, hbounds⟩, fun h1 h2 => ⟨?_, hbounds⟩, fun h1 h2 => ⟨?_, hbounds⟩⟩
  · simp only [calculateBar, h1, h2, toJS_some]
    rw [jsDiv_num_num v hMne, jsMul_num_num, jsRound_num]
  · simp only [calculateBar, h1, h2, toJS_some]
    rw [jsDiv_num_num v hMne, jsMul_num_num, jsRound_num, jsOrNum_num_zero]
  · simp only [calculateBar, h1, h2, toJS_some]
    rw [jsDiv_num_num v hMne, jsMul_num_num, jsRound_num]

/-- Witness for the amended C1 at duration 150 against maximum 200: the
fraction is 75, inside 0..100. -/
theorem calculateBar_fraction_in_range_witness :
    (calculateBar HighlightType.duration planMaxDur200 nodeDur150 initialBarState).barWidth
      = JSNum.num 75 ∧ (0:ℤ) ≤ 75 ∧ (75:ℤ) ≤ 100 := by
  have h := (calculateBar_fraction_in_range planMaxDur200 nodeDur150 initialBarState 150 200
    (by norm_num) (by norm_num) (by norm_num)).1 rfl rfl
  refine ⟨?_, by norm_num, by norm_num⟩
  rw [h.1]
  norm_num

/-- Counterexample to C2 as stated: on a plan with no execution time whose
root also lacks an actual total time, a node with exclusive duration 5
still gets an undefined (NaN) duration percent, so definedness of the
metric is not equivalent to presence of the exclusive-duration field. -/
theorem calculateDuration_missing_exec_time_cex :
    calculateDuration emptyPlan nodeDur5 = JSNum.nan ∧
    nodeDur5.exclusiveDuration ≠ none := by
  constructor
  · simp [calculateDuration, nodeDur5, emptyPlan, emptyStats, emptyNode, jsOr, truthyOpt]
  · simp [nodeDur5, emptyNode]

/-- C2 amended: when the node's exclusive duration is absent the duration
percent is NaN (undefined, never zero) regardless of the plan; when it is
present with a non-negative value d and the effective execution time
(plan-level, or the root actual total time as fallback) is present and
positive, the percent is exactly round(d / e * 100), a non-negative
integer.  (The claim's unconditional definedness fails when the effective
execution time is absent: see the counterexample.) -/
theorem calculateDuration_spec (plan : IPlan) (node : Node) (d e : ℚ) :
    (node.exclusiveDuration = none → calculateDuration plan node = JSNum.nan) ∧
    (node.exclusiveDuration = some d →
      jsOr plan.planStats.executionTime plan.content.Plan.actualTotalTime = some e →
      0 ≤ d → 0 < e →
      calculateDuration plan node = JSNum.num ((⌊d / e * 100 + 1/2⌋ : ℤ) : ℚ) ∧
      0 ≤ (⌊d / e * 100 + 1/2⌋ : ℤ)) := by
  constructor
  · intro h
    simp [calculateDuration, h]
  · intro hd he hd0 he0
    constructor
    · simp only [calculateDuration, hd, he, toJS_some]
      rw [jsDiv_num_num d (ne_of_gt he0), jsMul_num_num, jsRound_num]
    · have h1 : (0:ℚ) ≤ d / e := div_nonneg hd0 (le_of_lt he0)
      have h2 : (0:ℚ) ≤ d / e * 100 := mul_nonneg h1 (by norm_num)
      exact Int.floor_nonneg.mpr (by linarith)

/-- Witness for the amended C2: duration 5 over execution time 200 gives
the duration percent 3 = round(2.5). -/
theorem calculateDuration_spec_witness :
    calculateDuration planExec200 nodeDur5 = JSNum.num 3 := by
  have h := (calculateDuration_spec planExec200 nodeDur5 5 200).2 rfl
    (by simp [planExec200, emptyPlan, emptyStats, emptyNode, jsOr, truthyOpt])
    (by norm_num) (by norm_num)
  rw [h.1]
  norm_num

/-- C10: calculateBar with dimension none changes neither ref; with a
selected dimension whose raw metric is absent from the node it nulls the
label while leaving the stored bar fraction untouched.  Hence a fraction
computed for a previously selected dimension persists across such calls. -/
theorem calculateBar_frame_effect (plan : IPlan) (node : Node) (st : BarState) :
    calculateBar HighlightType.none plan node st = st ∧
    (node.exclusiveDuration = none →
      (calculateBar HighlightType.duration plan node st).barWidth = st.barWidth ∧
      (calculateBar HighlightType.duration plan node st).highlightValue = none) ∧
    (node.actualRows = none →
      (calculateBar HighlightType.rows plan node st).barWidth = st.barWidth ∧
      (calculateBar HighlightType.rows plan node st).highlightValue = none) ∧
    (node.exclusiveCost = none →
      (calculateBar HighlightType.cost plan node st).barWidth = st.barWidth ∧
      (calculateBar HighlightType.cost plan node st).highlightValue = none) := by
  refine ⟨rfl, ?_, ?_, ?_⟩ <;> (intro h; rw [calculateBar]; simp [h])

/-- Witness for C10: with every metric absent, a stale bar fraction of 42
survives both a switch to dimension none and a recomputation for the
duration dimension, which only nulls the label. -/
theorem calculateBar_frame_effect_witness :
    calculateBar HighlightType.none emptyPlan emptyNode persistedState = persistedState ∧
    (calculateBar HighlightType.duration emptyPlan emptyNode persistedState).barWidth
      = JSNum.num 42 ∧
    (calculateBar HighlightType.duration emptyPlan emptyNode persistedState).highlightValue
      = none := by
  have h := calculateBar_frame_effect emptyPlan emptyNode persistedState
  exact ⟨h.1, ((h.2.1 rfl).1).trans rfl, (h.2.1 rfl).2⟩

/-- Counterexample to C3 as stated: removed 999999 against actual 1 floors
to 99 and therefore displays the plain "99", not ">99" as the claim's
example asserts. -/
theorem calculateRowsRemoved_display_cex :
    (calculateRowsRemoved nodeRemoved999999 initialRowsRemovedState).rowsRemovedPercentString
      = some "99" ∧ (some "99" : Option String) ≠ some ">99" := by
  constructor
  · rw [calculateRowsRemoved_eval nodeRemoved999999 initialRowsRemovedState RRKey.filterRevised
      999999 1 rfl rfl rfl (by norm_num)]
    norm_num
    decide
  · decide

/-- C3 amended: for a node with a rows-removed value r and actual rows a
(both non-negative with r + a positive), the percent is the floor of
r / (r + a) * 100; the display string is "<1" exactly when the true
percentage is below 1 (floor 0), ">99" exactly when the actual-rows count
is 0 (the only way the floor reaches 100), and the plain decimal integer
otherwise — so removed 999999 against actual 1 displays "99". -/
theorem calculateRowsRemoved_display_spec (node : Node) (st : RowsRemovedState) (k : RRKey)
    (r a : ℚ) (hk : rowsRemovedProp node = some k) (hr : rrValue node k = some r)
    (ha : node.actualRows = some a) (hr0 : 0 ≤ r) (ha0 : 0 ≤ a) (hsum : 0 < r + a) :
    (calculateRowsRemoved node st).rowsRemovedPercent
      = JSNum.num ((⌊r / (r + a) * 100⌋ : ℤ) : ℚ) ∧
    ((calculateRowsRemoved node st).rowsRemovedPercentString = some "<1" ↔
      r / (r + a) * 100 < 1) ∧
    ((calculateRowsRemoved node st).rowsRemovedPercentString = some ">99" ↔ a = 0) ∧
    ((⌊r / (r + a) * 100⌋ : ℤ) ≠ 0 → (⌊r / (r + a) * 100⌋ : ℤ) ≠ 100 →
      (calculateRowsRemoved node st).rowsRemovedPercentString
        = some (intRepr ⌊r / (r + a) * 100⌋)) := by
  have hsum' : r + a ≠ 0 := ne_of_gt hsum
  have hev := calculateRowsRemoved_eval node st k r a hk hr ha hsum'
  have hpct : (calculateRowsRemoved node st).rowsRemovedPercent
      = JSNum.num ((⌊r / (r + a) * 100⌋ : ℤ) : ℚ) := by rw [hev]
  have hstr : (calculateRowsRemoved node st).rowsRemovedPercentString
      = (if ((⌊r / (r + a) * 100⌋ : ℤ) : ℚ) = 100 then some ">99"
         else if ((⌊r / (r + a) * 100⌋ : ℤ) : ℚ) = 0 then some "<1"
         else some (intRepr ⌊r / (r + a) * 100⌋)) := by rw [hev]
  have hx0 : 0 ≤ r / (r + a) * 100 :=
    mul_nonneg (div_nonneg hr0 (le_of_lt hsum)) (by norm_num)
  have hdiv1 : r / (r + a) ≤ 1 := (div_le_one hsum).mpr (by linarith)
  have hxle : r / (r + a) * 100 ≤ 100 := by nlinarith
  have hfl0 : 0 ≤ ⌊r / (r + a) * 100⌋ := Int.floor_nonneg.mpr hx0
  have hfl100 : ⌊r / (r + a) * 100⌋ ≤ 100 := by
    have := Int.floor_lt.mpr (show r / (r + a) * 100 < ((101:ℤ):ℚ) by push_cast; linarith)
    omega
  have ha_to_x : a = 0 → r / (r + a) * 100 = 100 := by
    intro h0
    have hrne : r ≠ 0 := by
      intro hr'
      rw [hr', h0] at hsum
      norm_num at hsum
    rw [h0, add_zero, div_self hrne]
    norm_num
  have hx_to_a : ⌊r / (r + a) * 100⌋ = 100 → a = 0 := by
    intro h100
    have h1 : ((100:ℤ):ℚ) ≤ r / (r + a) * 100 := Int.le_floor.mp (le_of_eq h100.symm)
    have hx100 : r / (r + a) * 100 = 100 := le_antisymm hxle (by exact_mod_cast h1)
    have hone : r / (r + a) = 1 := by linarith
    have := (div_eq_iff hsum').mp hone
    linarith
  refine ⟨hpct, ?_, ?_, ?_⟩
  · rw [hstr]
    by_cases h100 : (⌊r / (r + a) * 100⌋ : ℤ) = 100
    · rw [if_pos (by exact_mod_cast h100)]
      refine iff_of_false (by decide) ?_
      intro hlt
      have := ha_to_x (hx_to_a h100)
      linarith
    · rw [if_neg (fun hc => h100 (by exact_mod_cast hc))]
      by_cases h0 : (⌊r / (r + a) * 100⌋ : ℤ) = 0
      · rw [if_pos (by exact_mod_cast h0)]
        refine iff_of_true rfl ?_
        exact (Set.mem_Ico.mp (Int.floor_eq_zero_iff.mp h0)).2
      · rw [if_neg (fun hc => h0 (by exact_mod_cast hc))]
        refine iff_of_false ?_ ?_
        · intro hc
          simp only [Option.some.injEq] at hc
          rw [intRepr, if_neg (not_lt.mpr hfl0)] at hc
          exact (natRepr_small_ne _ (by omega)).1 hc
        · intro hlt
          exact h0 (Int.floor_eq_zero_iff.mpr (Set.mem_Ico.mpr ⟨hx0, hlt⟩))
  · rw [hstr]
    by_cases h100 : (⌊r / (r + a) * 100⌋ : ℤ) = 100
    · rw [if_pos (by exact_mod_cast h100)]
      exact iff_of_true rfl (hx_to_a h100)
    · rw [if_neg (fun hc => h100 (by exact_mod_cast hc))]
      have hnot : ¬ a = 0 := by
        intro hax
        apply h100
        rw [ha_to_x hax]
        norm_num
      by_cases h0 : (⌊r / (r + a) * 100⌋ : ℤ) = 0
      · rw [if_pos (by exact_mod_cast h0)]
        exact iff_of_false (by decide) hnot
      · rw [if_neg (fun hc => h0 (by exact_mod_cast hc))]
        refine iff_of_false ?_ hnot
        intro hc
        simp only [Option.some.injEq] at hc
        rw [intRepr, if_neg (not_lt.mpr hfl0)] at hc
        exact (natRepr_small_ne _ (by omega)).2 hc
  · intro hne0 hne100
    rw [hstr, if_neg (fun hc => hne100 (by exact_mod_cast hc)),
      if_neg (fun hc => hne0 (by exact_mod_cast hc))]

/-- Witness for the amended C3: removed 50 against actual 50 gives percent
50 and the plain display "50". -/
theorem calculateRowsRemoved_display_spec_witness :
    (calculateRowsRemoved nodeRemoved50 initialRowsRemovedState).rowsRemovedPercent
      = JSNum.num 50 ∧
    (calculateRowsRemoved nodeRemoved50 initialRowsRemovedState).rowsRemovedPercentString
      = some "50" := by
  have h := calculateRowsRemoved_display_spec nodeRemoved50 initialRowsRemovedState
    RRKey.filterRevised 50 50 rfl rfl rfl (by norm_num) (by norm_num) (by norm_num)
  have h50 : (⌊(50:ℚ) / (50 + 50) * 100⌋ : ℤ) = 50 := by norm_num
  constructor
  · rw [h.1, h50]
    norm_num
  · have hplain := h.2.2.2 (by rw [h50]; norm_num) (by rw [h50]; norm_num)
    rw [hplain, h50]
    decide

/-- C4: rowsRemoved is read from whichever of the two rows-removed-revised
keys is present; when neither key is present nothing is written, so the
refs keep their NaN initial values; and starting from the initial state
the rows-removed percent is a finite (defined) number exactly when a
removed count and the actual-rows count are both present with positive
sum — an absent actual-rows count or a zero sum leaves the percent NaN,
not zero. -/
theorem rowsRemoved_definedness (node : Node) :
    (∀ r : ℚ, node.rowsRemovedByFilterRevised = some r →
      node.rowsRemovedByJoinFilterRevised = none →
      (calculateRowsRemoved node initialRowsRemovedState).rowsRemoved = JSNum.num r) ∧
    (∀ r : ℚ, node.rowsRemovedByFilterRevised = none →
      node.rowsRemovedByJoinFilterRevised = some r →
      (calculateRowsRemoved node initialRowsRemovedState).rowsRemoved = JSNum.num r) ∧
    (node.rowsRemovedByFilterRevised = none →
      node.rowsRemovedByJoinFilterRevised = none →
      calculateRowsRemoved node initialRowsRemovedState = initialRowsRemovedState ∧
      JSNum.isNum initialRowsRemovedState.rowsRemovedPercent = false) ∧
    (∀ (k : RRKey) (r : ℚ), rowsRemovedProp node = some k → rrValue node k = some r →
      0 ≤ r →
      (node.actualRows = none →
        JSNum.isNum (calculateRowsRemoved node initialRowsRemovedState).rowsRemovedPercent
          = false) ∧
      (∀ a : ℚ, node.actualRows = some a → 0 ≤ a →
        (JSNum.isNum (calculateRowsRemoved node initialRowsRemovedState).rowsRemovedPercent
            = true ↔ 0 < r + a))) := by
  refine ⟨?_, ?_, ?_, ?_⟩
  · intro r h1 h2
    simp [calculateRowsRemoved, rowsRemovedProp, rrValue, h1, h2]
  · intro r h1 h2
    simp [calculateRowsRemoved, rowsRemovedProp, rrValue, h1, h2]
  · intro h1 h2
    constructor
    · simp [calculateRowsRemoved, rowsRemovedProp, h1, h2]
    · rfl
  · intro k r hk hr hr0
    constructor
    · intro ha
      simp [calculateRowsRemoved, hk, hr, ha, JSNum.isNum]
    · intro a ha ha0
      by_cases hpos : 0 < r + a
      · rw [calculateRowsRemoved_eval node initialRowsRemovedState k r a hk hr ha
          (ne_of_gt hpos)]
        simp [JSNum.isNum, hpos]
      · have hr' : r = 0 := by linarith
        have ha' : a = 0 := by linarith
        subst hr'
        subst ha'
        rw [show ((0:ℚ) + 0) = 0 by norm_num] at hpos
        simp [calculateRowsRemoved, hk, hr, ha, JSNum.isNum, hpos]

/-- Witness for C4: a node with only the filter-revised key (value 50) and
50 actual rows reads 50 and gets a defined percent, while a node with
neither key keeps the untouched initial NaN state. -/
theorem rowsRemoved_definedness_witness :
    (calculateRowsRemoved nodeRemoved50 initialRowsRemovedState).rowsRemoved = JSNum.num 50 ∧
    JSNum.isNum (calculateRowsRemoved nodeRemoved50 initialRowsRemovedState).rowsRemovedPercent
      = true ∧
    calculateRowsRemoved emptyNode initialRowsRemovedState = initialRowsRemovedState := by
  have h := rowsRemoved_definedness nodeRemoved50
  have h0 := rowsRemoved_definedness emptyNode
  refine ⟨h.1 50 rfl rfl, ?_, (h0.2.2.1 rfl rfl).1⟩
  exact ((h.2.2.2 RRKey.filterRevised 50 rfl rfl (by norm_num)).2 50 rfl
    (by norm_num)).mpr (by norm_num)

end Pev2
